import Mathlib

/-!
Verification of the MCP server generator (requirement-resolution engine and
template-expansion engine).

The TypeScript sources are embedded shallowly:

* pure functions become Lean functions over `String`/`List`;
* the two external AI capabilities (`Analyze`, per-pattern tool synthesis)
  are opaque oracle parameters returning `Option` (with `none` = failure),
  matching the source's try/catch fallbacks;
* JavaScript `Set` insertion and `filter`/`findIndex` deduplication idioms
  become explicit first-occurrence folds;
* JavaScript string methods (`toLowerCase`, `toUpperCase`, `includes`,
  `trim`, `slice`, `split`) are modelled on ASCII data by the corresponding
  character-list functions below.

Fields of catalog records that no verified code path reads (the pattern
`template`, `inputSchema`, `outputSchema` blobs and integration
`setupInstructions` prose) are omitted from the embedding.
-/

/-! ## JavaScript string primitives -/

/-- Character-level matcher: does the pattern occur at the head of the text?
Backs the `String.prototype.includes` model. -/
def subAt : List Char → List Char → Bool
  | [], _ => true
  | _ :: _, [] => false
  | p :: ps, c :: cs => p == c && subAt ps cs

/-- Does the pattern occur anywhere in the text (as a contiguous run)? -/
def subIn (pat : List Char) : List Char → Bool
  | [] => pat.isEmpty
  | c :: cs => subAt pat (c :: cs) || subIn pat cs

/-- Model of JavaScript `s.includes(pat)` for ASCII strings. -/
def strIncludes (s pat : String) : Bool :=
  subIn pat.toList s.toList

/-- The whitespace class of the JavaScript regexes and of `trim` (ASCII
portion). -/
def isJsWs (c : Char) : Bool :=
  c == ' ' || c == '\t' || c == '\n' || c == '\r' || c == '\x0b' || c == '\x0c'

/-- Model of JavaScript `s.toLowerCase()` for ASCII strings. -/
def jsToLower (s : String) : String :=
  String.mk (s.toList.map Char.toLower)

/-- Model of JavaScript `s.toUpperCase()` for ASCII strings. -/
def jsToUpper (s : String) : String :=
  String.mk (s.toList.map Char.toUpper)

/-- Model of JavaScript `s.trim()` for ASCII strings. -/
def jsTrim (s : String) : String :=
  String.mk (((s.toList.dropWhile isJsWs).reverse.dropWhile isJsWs).reverse)

/-- Model of JavaScript `s.slice(0, n)` for ASCII strings. -/
def jsTake (s : String) (n : Nat) : String :=
  String.mk (s.toList.take n)

/-- Split a character list at every occurrence of `sep` (no run collapsing,
like JavaScript `split` with a single-character separator). -/
def splitOnChar (sep : Char) : List Char → List (List Char)
  | [] => [[]]
  | c :: cs =>
    if c == sep then [] :: splitOnChar sep cs
    else
      match splitOnChar sep cs with
      | [] => [[c]]
      | w :: ws => (c :: w) :: ws

/-- Model of JavaScript `s.split(' ')`. -/
def jsSplitSpace (s : String) : List String :=
  (splitOnChar ' ' s.toList).map String.mk

/-! ## Data model (ai-generator package) -/

/-- Tool pattern catalog entry (`ToolPattern` in `types.ts`), restricted to the
fields the resolver and matcher read. -/
structure ToolPattern where
  id : String
  name : String
  category : String
  description : String
  actions : List String
  dependencies : List String
  examples : List String
deriving DecidableEq

/-- One property of an integration's configuration schema (a JSON-Schema
property with an optional human-readable description). -/
structure SchemaProp where
  ty : String
  description : Option String
deriving DecidableEq

/-- Integration configuration schema: ordered properties plus required keys.
JavaScript object key order is insertion order, so an ordered list is the
faithful model of `Object.entries(schema.properties)`. -/
structure ConfigSchema where
  properties : List (String × SchemaProp)
  required : List String
deriving DecidableEq

/-- Integration definition catalog entry (`IntegrationConfig` in `types.ts`). -/
structure IntegrationConfig where
  id : String
  name : String
  displayName : String
  description : String
  dependencies : List String
  authType : String
  environmentVariables : List String
  configSchema : ConfigSchema
deriving DecidableEq

/-- The analysis-result record the `Analyze` capability returns (the JSON
shape requested by `analyzeRequiredTools`, also produced by
`createFallbackAnalysis`). -/
structure Analysis where
  summary : String
  primaryActions : List String
  dataTypes : List String
  services : List String
  complexity : String
  toolCategories : List String
  suggestedIntegrations : List String
  keyFeatures : List String
  estimatedTools : Nat
deriving DecidableEq

/-- The JSON payload the per-pattern synthesis capability returns
(`generateCustomTool`'s parsed response). -/
structure ToolData where
  name : String
  description : String
  inputSchema : ConfigSchema
  outputSchema : ConfigSchema
  implementation : String
deriving DecidableEq

/-- A generated tool as assembled by `generateCustomTool`. -/
structure GeneratedTool where
  id : String
  patternId : String
  name : String
  description : String
  inputSchema : ConfigSchema
  outputSchema : ConfigSchema
  implementation : String
  dependencies : List String
deriving DecidableEq

/-- The `metadata` block of a generated server configuration.  The
`generatedAt` timestamp is threaded in as the `now` parameter of the
resolver. -/
structure ConfigMetadata where
  generatedAt : String
  aiAnalysis : Analysis
  originalDescription : String
deriving DecidableEq

/-- The server configuration assembled by `AIGenerator.generateServerConfig`. -/
structure ServerConfig where
  name : String
  description : String
  patterns : List ToolPattern
  integrations : List IntegrationConfig
  customTools : List GeneratedTool
  dependencies : List String
  environmentVariables : List (String × String)
  metadata : ConfigMetadata
deriving DecidableEq

/-! ## Catalog: tool patterns (`patterns.ts`) -/

def apiRequestPattern : ToolPattern :=
  { id := "api-request"
    name := "API Request Tool"
    category := "api"
    description := "Make HTTP requests to REST APIs"
    actions := ["get", "post", "put", "delete", "patch", "request"]
    dependencies := ["axios", "zod"]
    examples := ["fetch data from API", "post to webhook", "REST API calls"] }

def fileOperationsPattern : ToolPattern :=
  { id := "file-operations"
    name := "File Operations Tool"
    category := "file"
    description := "Read, write, and manipulate files"
    actions := ["read", "write", "delete", "list", "copy", "move", "exists"]
    dependencies := ["fs-extra", "path"]
    examples := ["read files", "write data to file", "manage directories",
                 "file system operations"] }

def databaseQueryPattern : ToolPattern :=
  { id := "database-query"
    name := "Database Query Tool"
    category := "database"
    description := "Execute database queries and operations"
    actions := ["query", "insert", "update", "delete", "select"]
    dependencies := ["pg", "mysql2", "sqlite3"]
    examples := ["run SQL queries", "database operations", "data retrieval"] }

def notificationSenderPattern : ToolPattern :=
  { id := "notification-sender"
    name := "Notification Sender Tool"
    category := "notification"
    description := "Send notifications via email, Slack, or other channels"
    actions := ["send", "email", "slack", "webhook", "sms"]
    dependencies := ["nodemailer", "@slack/web-api", "twilio"]
    examples := ["send emails", "slack notifications", "SMS alerts",
                 "webhook calls"] }

def dataProcessingPattern : ToolPattern :=
  { id := "data-processing"
    name := "Data Processing Tool"
    category := "processing"
    description := "Transform, filter, and process data"
    actions := ["transform", "filter", "map", "reduce", "sort", "group"]
    dependencies := ["lodash", "moment", "csv-parser"]
    examples := ["process arrays", "transform data", "filter results",
                 "data manipulation"] }

def authHandlerPattern : ToolPattern :=
  { id := "auth-handler"
    name := "Authentication Handler"
    category := "auth"
    description := "Handle authentication and authorization"
    actions := ["login", "logout", "verify", "refresh", "oauth"]
    dependencies := ["jsonwebtoken", "bcrypt", "passport"]
    examples := ["user authentication", "JWT tokens", "OAuth flows",
                 "login systems"] }

/-- The static pattern catalog `TOOL_PATTERNS`, in source order. -/
def TOOL_PATTERNS : List ToolPattern :=
  [apiRequestPattern, fileOperationsPattern, databaseQueryPattern,
   notificationSenderPattern, dataProcessingPattern, authHandlerPattern]

/-! ## Catalog: integrations (`integrations.ts`) -/

def githubIntegration : IntegrationConfig :=
  { id := "github"
    name := "github-api"
    displayName := "GitHub API"
    description := "Integrate with GitHub repositories, issues, and pull requests"
    dependencies := ["@octokit/rest", "@octokit/auth-app"]
    authType := "api-key"
    environmentVariables := ["GITHUB_TOKEN", "GITHUB_APP_ID", "GITHUB_PRIVATE_KEY"]
    configSchema :=
      { properties :=
          [("token", { ty := "string", description := some "GitHub personal access token" }),
           ("owner", { ty := "string", description := some "Repository owner" }),
           ("repo", { ty := "string", description := some "Repository name" })]
        required := ["token"] } }

def slackIntegration : IntegrationConfig :=
  { id := "slack"
    name := "slack-api"
    displayName := "Slack API"
    description := "Send messages and interact with Slack workspaces"
    dependencies := ["@slack/web-api", "@slack/bolt"]
    authType := "api-key"
    environmentVariables := ["SLACK_BOT_TOKEN", "SLACK_SIGNING_SECRET"]
    configSchema :=
      { properties :=
          [("token", { ty := "string", description := some "Slack bot token" }),
           ("channel", { ty := "string", description := some "Default channel" })]
        required := ["token"] } }

def postgresqlIntegration : IntegrationConfig :=
  { id := "postgresql"
    name := "postgresql-db"
    displayName := "PostgreSQL Database"
    description := "Connect to and query PostgreSQL databases"
    dependencies := ["pg", "@types/pg"]
    authType := "basic"
    environmentVariables := ["DATABASE_URL", "DB_HOST", "DB_PORT", "DB_NAME",
                             "DB_USER", "DB_PASSWORD"]
    configSchema :=
      { properties :=
          [("host", { ty := "string", description := some "Database host" }),
           ("port", { ty := "number", description := some "Database port" }),
           ("database", { ty := "string", description := some "Database name" }),
           ("user", { ty := "string", description := some "Database user" }),
           ("password", { ty := "string", description := some "Database password" }),
           ("ssl", { ty := "boolean", description := some "Use SSL connection" })]
        required := ["host", "database", "user", "password"] } }

def sendgridIntegration : IntegrationConfig :=
  { id := "sendgrid"
    name := "sendgrid-email"
    displayName := "SendGrid Email"
    description := "Send emails using SendGrid service"
    dependencies := ["@sendgrid/mail"]
    authType := "api-key"
    environmentVariables := ["SENDGRID_API_KEY"]
    configSchema :=
      { properties :=
          [("apiKey", { ty := "string", description := some "SendGrid API key" }),
           ("fromEmail", { ty := "string", description := some "Default sender email" }),
           ("fromName", { ty := "string", description := some "Default sender name" })]
        required := ["apiKey", "fromEmail"] } }

def awsS3Integration : IntegrationConfig :=
  { id := "aws-s3"
    name := "aws-s3-storage"
    displayName := "AWS S3 Storage"
    description := "Upload, download, and manage files in AWS S3"
    dependencies := ["@aws-sdk/client-s3", "@aws-sdk/s3-request-presigner"]
    authType := "api-key"
    environmentVariables := ["AWS_ACCESS_KEY_ID", "AWS_SECRET_ACCESS_KEY",
                             "AWS_REGION", "AWS_S3_BUCKET"]
    configSchema :=
      { properties :=
          [("accessKeyId", { ty := "string", description := some "AWS access key ID" }),
           ("secretAccessKey", { ty := "string", description := some "AWS secret access key" }),
           ("region", { ty := "string", description := some "AWS region" }),
           ("bucket", { ty := "string", description := some "S3 bucket name" })]
        required := ["accessKeyId", "secretAccessKey", "bucket"] } }

def discordIntegration : IntegrationConfig :=
  { id := "discord"
    name := "discord-bot"
    displayName := "Discord Bot"
    description := "Create Discord bot interactions and send messages"
    dependencies := ["discord.js"]
    authType := "api-key"
    environmentVariables := ["DISCORD_BOT_TOKEN", "DISCORD_CLIENT_ID"]
    configSchema :=
      { properties :=
          [("token", { ty := "string", description := some "Discord bot token" }),
           ("clientId", { ty := "string", description := some "Discord application client ID" }),
           ("guildId", { ty := "string", description := some "Discord server ID" })]
        required := ["token", "clientId"] } }

def twilioIntegration : IntegrationConfig :=
  { id := "twilio"
    name := "twilio-sms"
    displayName := "Twilio SMS"
    description := "Send SMS messages using Twilio"
    dependencies := ["twilio"]
    authType := "basic"
    environmentVariables := ["TWILIO_ACCOUNT_SID", "TWILIO_AUTH_TOKEN",
                             "TWILIO_PHONE_NUMBER"]
    configSchema :=
      { properties :=
          [("accountSid", { ty := "string", description := some "Twilio Account SID" }),
           ("authToken", { ty := "string", description := some "Twilio Auth Token" }),
           ("phoneNumber", { ty := "string", description := some "Twilio phone number" })]
        required := ["accountSid", "authToken", "phoneNumber"] } }

def openaiIntegration : IntegrationConfig :=
  { id := "openai"
    name := "openai-api"
    displayName := "OpenAI API"
    description := "Integrate with OpenAI GPT models and other AI services"
    dependencies := ["openai"]
    authType := "api-key"
    environmentVariables := ["OPENAI_API_KEY"]
    configSchema :=
      { properties :=
          [("apiKey", { ty := "string", description := some "OpenAI API key" }),
           ("model", { ty := "string", description := some "Default model" }),
           ("organization", { ty := "string", description := some "OpenAI organization ID" })]
        required := ["apiKey"] } }

/-- The static integration catalog `INTEGRATIONS`, in source order. -/
def INTEGRATIONS : List IntegrationConfig :=
  [githubIntegration, slackIntegration, postgresqlIntegration,
   sendgridIntegration, awsS3Integration, discordIntegration,
   twilioIntegration, openaiIntegration]

/-! ## Matcher (`patterns.ts` / `integrations.ts`) -/

/-- `findMatchingPatterns(keywords, actions)` from `patterns.ts`: a pattern is
kept when some lowered keyword matches an action or an example by
case-insensitive substring containment in either direction, or is exactly
equal to the pattern's category name (`allKeywords.includes(category)` is an
exact array-membership test, not a substring test). -/
def findMatchingPatterns (keywords : List String) (actions : List String) : List ToolPattern :=
  let allKeywords := (keywords ++ actions).map jsToLower
  TOOL_PATTERNS.filter fun pattern =>
    let actionMatch := pattern.actions.any fun action =>
      allKeywords.any fun keyword =>
        strIncludes (jsToLower action) keyword || strIncludes keyword (jsToLower action)
    let exampleMatch := pattern.examples.any fun ex =>
      allKeywords.any fun keyword =>
        strIncludes (jsToLower ex) keyword || strIncludes keyword (jsToLower ex)
    let categoryMatch := allKeywords.contains (jsToLower pattern.category)
    actionMatch || exampleMatch || categoryMatch

/-- `findMatchingIntegrations(keywords)` from `integrations.ts`: an
integration is kept when one of its id, name, display name or description
contains some lowered keyword (one direction only in the source). -/
def findMatchingIntegrations (keywords : List String) : List IntegrationConfig :=
  let lowerKeywords := keywords.map jsToLower
  INTEGRATIONS.filter fun integration =>
    lowerKeywords.any fun keyword =>
      strIncludes (jsToLower integration.id) keyword ||
      strIncludes (jsToLower integration.name) keyword ||
      strIncludes (jsToLower integration.displayName) keyword ||
      strIncludes (jsToLower integration.description) keyword

/-- Spec-side matching of one candidate term against one query keyword:
case-insensitive substring containment in both directions.  Written from the
spec's words for comparison with the source's matchers. -/
def specTermMatch (term keyword : String) : Bool :=
  strIncludes (jsToLower term) (jsToLower keyword) || strIncludes (jsToLower keyword) (jsToLower term)

/-- Spec-side pattern matcher (bidirectional substring containment against
action lists, example phrases and the category name), written from the spec's
words for comparison with `findMatchingPatterns`. -/
def specFindMatchingPatterns (keywords actions : List String) : List ToolPattern :=
  TOOL_PATTERNS.filter fun p =>
    (keywords ++ actions).any fun k =>
      p.actions.any (fun a => specTermMatch a k) ||
      p.examples.any (fun e => specTermMatch e k) ||
      specTermMatch p.category k

/-- Spec-side integration matcher (bidirectional substring containment
against id, name, display name and description), written from the spec's
words for comparison with `findMatchingIntegrations`. -/
def specFindMatchingIntegrations (keywords : List String) : List IntegrationConfig :=
  INTEGRATIONS.filter fun i =>
    keywords.any fun k =>
      specTermMatch i.id k || specTermMatch i.name k ||
      specTermMatch i.displayName k || specTermMatch i.description k

/-- Modelled from the spec: `findIntegrations(service)`, the single-keyword
integration lookup that `selectIntegrations` imports from its sibling
`integrations` module.  That module is not among the provided sources (the
in-repo `integrations.ts` only exports the list-keyword
`findMatchingIntegrations`), so the function is modelled from spec section
4.1: case-insensitive substring matching in both directions against
integration id, name, display name and description, preserving catalog
order. -/
def findIntegrations (service : String) : List IntegrationConfig :=
  INTEGRATIONS.filter fun i =>
    specTermMatch i.id service || specTermMatch i.name service ||
    specTermMatch i.displayName service || specTermMatch i.description service

/-! ## Resolver (`ai-generator.ts`) -/

/-- First-occurrence deduplication keyed by `key`, the model of the
`array.filter((x, index, self) => index === self.findIndex(y => key y = key x))`
idiom used by `selectToolPatterns` and `selectIntegrations`. -/
def dedupByKeyGo (key : α → String) (seen : List String) : List α → List α
  | [] => []
  | x :: xs =>
    if key x ∈ seen then dedupByKeyGo key seen xs
    else x :: dedupByKeyGo key (key x :: seen) xs

/-- Keep the first occurrence of each key, preserving order. -/
def dedupByKey (key : α → String) (l : List α) : List α :=
  dedupByKeyGo key [] l

/-- JavaScript `Set.add` on an insertion-ordered set represented as a list. -/
def jsSetAdd (acc : List String) (d : String) : List String :=
  if d ∈ acc then acc else acc ++ [d]

/-- The candidate patterns gathered by `selectToolPatterns` before
deduplication: all patterns whose category equals a declared tool category,
followed by all patterns one of whose actions matches a declared primary
action by bidirectional case-insensitive substring containment. -/
def patternCandidates (analysis : Analysis) : List ToolPattern :=
  (analysis.toolCategories.flatMap fun category =>
    TOOL_PATTERNS.filter fun pattern => pattern.category == category) ++
  (analysis.primaryActions.flatMap fun action =>
    TOOL_PATTERNS.filter fun pattern =>
      pattern.actions.any fun patternAction =>
        strIncludes (jsToLower patternAction) (jsToLower action) ||
        strIncludes (jsToLower action) (jsToLower patternAction))

/-- `AIGenerator.selectToolPatterns`: gather candidates, deduplicate by
pattern id (first occurrence wins), default to the first catalog pattern when
nothing matched, cap at 5. -/
def selectToolPatterns (analysis : Analysis) : List ToolPattern :=
  let uniquePatterns := dedupByKey (fun p => p.id) (patternCandidates analysis)
  let withDefault :=
    if uniquePatterns.isEmpty then uniquePatterns ++ [apiRequestPattern]
    else uniquePatterns
  withDefault.take 5

/-- The candidate integrations gathered by `selectIntegrations` before
deduplication: exact-id lookups of the suggested integrations, followed by
keyword matches of the declared services. -/
def integrationCandidates (analysis : Analysis) : List IntegrationConfig :=
  (analysis.suggestedIntegrations.filterMap fun integrationId =>
    INTEGRATIONS.find? fun i => i.id == integrationId) ++
  (analysis.services.flatMap fun service => findIntegrations service)

/-- `AIGenerator.selectIntegrations`: gather candidates, deduplicate by
integration id (first occurrence wins), cap at 3. -/
def selectIntegrations (analysis : Analysis) : List IntegrationConfig :=
  (dedupByKey (fun i => i.id) (integrationCandidates analysis)).take 3

/-- The tool `generateCustomTool` assembles from a pattern and the synthesis
capability's parsed response (`Date.now()` is threaded in as `now`). -/
def buildCustomTool (pattern : ToolPattern) (now : Nat) (toolData : ToolData) :
    GeneratedTool :=
  { id := pattern.id ++ "_" ++ toString now
    patternId := pattern.id
    name := toolData.name
    description := toolData.description
    inputSchema := toolData.inputSchema
    outputSchema := toolData.outputSchema
    implementation := toolData.implementation
    dependencies := pattern.dependencies }

/-- `AIGenerator.generateCustomTools`: for each selected pattern invoke the
synthesis capability; a failed synthesis (`none`) skips that pattern. -/
def generateCustomTools (synth : Analysis → ToolPattern → Option ToolData)
    (now : Nat) (analysis : Analysis) (patterns : List ToolPattern) :
    List GeneratedTool :=
  patterns.filterMap fun pattern =>
    (synth analysis pattern).map (buildCustomTool pattern now)

/-- `AIGenerator.calculateDependencies`: a JavaScript `Set` seeded with the
two core dependencies, then extended with every pattern's and every
integration's dependencies; `Array.from` returns insertion order. -/
def calculateDependencies (patterns : List ToolPattern)
    (integrations : List IntegrationConfig) : List String :=
  ((["@modelcontextprotocol/sdk", "zod"] ++
    patterns.flatMap (fun p => p.dependencies) ++
    integrations.flatMap (fun i => i.dependencies)).foldl jsSetAdd [])

/-- The environment-variable key `{INTEGRATION_ID}_{PROPERTY}` built by
`generateEnvironmentVariables`. -/
def envKeyFor (integration : IntegrationConfig) (key : String) : String :=
  jsToUpper integration.id ++ "_" ++ jsToUpper key

/-- The environment-variable value: the property's description, defaulting to
`displayName key`. -/
def envValFor (integration : IntegrationConfig) (kv : String × SchemaProp) : String :=
  kv.2.description.getD (integration.displayName ++ " " ++ kv.1)

/-- One `envVars[envKey] = envValue` assignment on a JavaScript object
modelled as an insertion-ordered association list: an existing key keeps its
position and is overwritten, a new key is appended. -/
def recordSet (m : List (String × String)) (k v : String) : List (String × String) :=
  if m.any (fun kv => kv.1 == k) then
    m.map fun kv => if kv.1 == k then (k, v) else kv
  else m ++ [(k, v)]

/-- `AIGenerator.generateEnvironmentVariables`: one entry per declared
configuration-schema property of each integration. -/
def generateEnvironmentVariables (integrations : List IntegrationConfig) :
    List (String × String) :=
  integrations.foldl
    (fun envVars integration =>
      integration.configSchema.properties.foldl
        (fun envVars kv => recordSet envVars (envKeyFor integration kv.1) (envValFor integration kv))
        envVars)
    []

/-- The flat entry list underlying `generateEnvironmentVariables`, in
insertion order. -/
def envEntries (integrations : List IntegrationConfig) : List (String × String) :=
  integrations.flatMap fun integration =>
    integration.configSchema.properties.map fun kv =>
      (envKeyFor integration kv.1, envValFor integration kv)

/-- `AIGenerator.createFallbackAnalysis`: the local keyword table used when
the Analyze capability fails.  The sequential `push` calls of the source are
written as ordered list concatenations. -/
def createFallbackAnalysis (description : String) : Analysis :=
  let lowerDesc := jsToLower description
  let hasGithub := strIncludes lowerDesc "github"
  let hasSlack := strIncludes lowerDesc "slack"
  let hasDb := strIncludes lowerDesc "database" || strIncludes lowerDesc "sql"
  let hasFile := strIncludes lowerDesc "file" || strIncludes lowerDesc "upload"
  let hasEmail := strIncludes lowerDesc "email"
  let categories :=
    (if hasGithub then ["api"] else []) ++
    (if hasSlack then ["notification"] else []) ++
    (if hasDb then ["database"] else []) ++
    (if hasFile then ["file"] else []) ++
    (if hasEmail then ["notification"] else [])
  { summary := jsTake description 100 ++ (if 100 < description.length then "..." else "")
    primaryActions := []
    dataTypes := []
    services :=
      (if hasGithub then ["GitHub"] else []) ++ (if hasSlack then ["Slack"] else [])
    complexity := "simple"
    toolCategories := if categories.isEmpty then ["api"] else categories
    suggestedIntegrations :=
      (if hasGithub then ["github"] else []) ++
      (if hasSlack then ["slack"] else []) ++
      (if hasDb then ["postgresql"] else []) ++
      (if hasEmail then ["sendgrid"] else [])
    keyFeatures := []
    estimatedTools := 1 }

/-- Drop a single leading hyphen (one half of the edge-hyphen regex
replacement in `generateServerName`). -/
def dropLeadHyphen : List Char → List Char
  | '-' :: rest => rest
  | l => l

/-- Collapse runs of hyphens to a single hyphen (the hyphen-run regex
replacement in `generateServerName`). -/
def collapseHyphens : List Char → List Char
  | [] => []
  | '-' :: t@('-' :: _) => collapseHyphens t
  | c :: rest => c :: collapseHyphens rest

/-- `AIGenerator.generateServerName`: first three words of the summary,
hyphen-joined, lower-cased, stripped to `[a-z0-9-]`, hyphen runs collapsed,
edge hyphens removed, suffixed with `-mcp-server`. -/
def generateServerName (analysis : Analysis) : String :=
  let summary := if analysis.summary == "" then "MCP Server" else analysis.summary
  let words := (jsSplitSpace summary).take 3
  let joined := jsToLower (String.intercalate "-" words)
  let kept := joined.toList.filter fun c =>
    (('a' ≤ c) && (c ≤ 'z')) || (('0' ≤ c) && (c ≤ '9')) || c == '-'
  let collapsed := collapseHyphens kept
  let trimmed := (dropLeadHyphen ((dropLeadHyphen collapsed.reverse).reverse))
  String.mk trimmed ++ "-mcp-server"

/-- The analysis the resolver proceeds with: the Analyze capability's result,
or the fallback analysis when that capability failed (the source's try/catch
around the OpenAI call and `JSON.parse`). -/
def analysisOf (analyze : String → Option Analysis) (description : String) : Analysis :=
  (analyze description).getD (createFallbackAnalysis description)

/-- `AIGenerator.generateServerConfig`, the resolver entry point.  `analyze`
and `synth` are the two opaque AI capabilities (`none` = failure), `now` the
clock reading used for tool ids and the `generatedAt` stamp. -/
def generateServerConfig (analyze : String → Option Analysis)
    (synth : Analysis → ToolPattern → Option ToolData) (now : Nat)
    (description : String) : ServerConfig :=
  let analysis := analysisOf analyze description
  let toolPatterns := selectToolPatterns analysis
  let integrations := selectIntegrations analysis
  let customTools := generateCustomTools synth now analysis toolPatterns
  { name := generateServerName analysis
    description := if analysis.summary == "" then description else analysis.summary
    patterns := toolPatterns
    integrations := integrations
    customTools := customTools
    dependencies := calculateDependencies toolPatterns integrations
    environmentVariables := generateEnvironmentVariables integrations
    metadata :=
      { generatedAt := toString now
        aiAnalysis := analysis
        originalDescription := description } }

/-! ## Data model (core package, `types.ts` as spelled out by the generated
type declarations and the template engine's field accesses) -/

/-- A JSON value, used for tool input schemas on the renderer side. -/
inductive Json where
  | str : String → Json
  | num : Int → Json
  | bool : Bool → Json
  | null : Json
  | arr : List Json → Json
  | obj : List (String × Json) → Json

/-- A tool in a core-package server configuration (`GeneratedTool` there:
name, description, input schema, optional implementation body). -/
structure RTool where
  name : String
  description : String
  inputSchema : Json
  implementation : Option String

/-- One parameter of an integration method. -/
structure RMethodParam where
  name : String
  ty : String

/-- One method of a core-package integration. -/
structure RMethod where
  name : String
  description : String
  parameters : List RMethodParam
  returnType : String
  implementation : Option String

/-- An integration in a core-package server configuration. -/
structure RIntegration where
  name : String
  description : String
  envVars : Option (List String)
  methods : Option (List RMethod)

/-- The core-package `ServerConfig` consumed by `MCPServerGenerator` and the
template engine. -/
structure RServerConfig where
  name : String
  description : String
  dependencies : List String
  customTools : List RTool
  integrations : List RIntegration

/-! ## MCPServerGenerator (`core/src/index.ts`) -/

/-- Characters kept by `sanitizeName`'s first replacement: alphanumerics,
whitespace, hyphen and underscore. -/
def sanitizeKeep (c : Char) : Bool :=
  (('a' ≤ c) && (c ≤ 'z')) || (('A' ≤ c) && (c ≤ 'Z')) ||
  (('0' ≤ c) && (c ≤ '9')) || isJsWs c || c == '-' || c == '_'

/-- Replace each maximal whitespace run by a single hyphen (the second
replacement in `sanitizeName`). -/
def wsRunsToHyphens : List Char → List Char
  | [] => []
  | a :: rest =>
    match rest with
    | [] => if isJsWs a then ['-'] else [a]
    | b :: _ =>
      if isJsWs a && isJsWs b then wsRunsToHyphens rest
      else (if isJsWs a then '-' else a) :: wsRunsToHyphens rest

/-- `MCPServerGenerator.sanitizeName`: trim, drop characters outside
`[a-zA-Z0-9\s-_]`, turn whitespace runs into hyphens, lower-case. -/
def sanitizeName (name : String) : String :=
  jsToLower (String.mk (wsRunsToHyphens ((jsTrim name).toList.filter sanitizeKeep)))

/-- `MCPServerGenerator.createBasicConfig`. -/
def createBasicConfig (name description : String) : RServerConfig :=
  { name := sanitizeName name
    description := description
    dependencies := ["@modelcontextprotocol/sdk", "zod"]
    customTools := []
    integrations := [] }

/-- `MCPServerGenerator.addTool`: returns a fresh configuration with the tool
appended; performs no validation. -/
def addTool (config : RServerConfig) (tool : RTool) : RServerConfig :=
  { config with customTools := config.customTools ++ [tool] }

/-- `MCPServerGenerator.addIntegration`: returns a fresh configuration with
the integration appended; performs no validation. -/
def addIntegration (config : RServerConfig) (integration : RIntegration) :
    RServerConfig :=
  { config with integrations := config.integrations ++ [integration] }

/-- `MCPServerGenerator.addDependency`: set-union the new dependency in,
preserving first-occurrence order. -/
def addDependency (config : RServerConfig) (dependency : String) : RServerConfig :=
  { config with dependencies := (config.dependencies ++ [dependency]).foldl jsSetAdd [] }

/-- `MCPServerGenerator.createTool`: sanitize the name and wrap the property
map into an object schema whose required list is every property key. -/
def createTool (name description : String) (inputSchema : List (String × Json))
    (implementation : Option String) : RTool :=
  { name := sanitizeName name
    description := description
    inputSchema := Json.obj
      [("type", Json.str "object"),
       ("properties", Json.obj inputSchema),
       ("required", Json.arr (inputSchema.map fun kv => Json.str kv.1))]
    implementation := implementation }

/-- The per-tool messages of `validateConfig` (the missing-input-schema
branch cannot fire in the model: `inputSchema` is non-nullable). -/
def toolErrors (idx : Nat) (tool : RTool) : List String :=
  (if jsTrim tool.name == "" then
    ["Tool at index " ++ toString idx ++ " is missing a name"] else []) ++
  (if jsTrim tool.description == "" then
    ["Tool \"" ++ tool.name ++ "\" is missing a description"] else [])

/-- `MCPServerGenerator.validateConfig`: field-level error messages, in
source order.  Note that the duplicate-name checks live inside the loop over
`config.integrations`, exactly as in the source: with no integrations they
never run. -/
def validateConfig (config : RServerConfig) : List String :=
  (if jsTrim config.name == "" then ["Server name is required"] else []) ++
  (if jsTrim config.description == "" then ["Server description is required"] else []) ++
  (config.customTools.enum.flatMap fun ti => toolErrors ti.1 ti.2) ++
  (config.integrations.enum.flatMap fun ii =>
    (if jsTrim ii.2.name == "" then
      ["Integration at index " ++ toString ii.1 ++ " is missing a name"] else []) ++
    (if jsTrim ii.2.description == "" then
      ["Integration \"" ++ ii.2.name ++ "\" is missing a description"] else []) ++
    (let toolNames := config.customTools.map fun t => jsToLower t.name
     let integrationNames := config.integrations.map fun i => jsToLower i.name
     (if toolNames.length ≠ toolNames.dedup.length then
       ["Duplicate tool names detected"] else []) ++
     (if integrationNames.length ≠ integrationNames.dedup.length then
       ["Duplicate integration names detected"] else [])))

/-! ## Template engine helpers (`template-engine.ts`) -/

/-- Insert `sep` between a lowercase letter and a following uppercase letter
(the `([a-z])([A-Z])` replacement of `kebabCase` and `constantCase`). -/
def insertCaseSep (sep : Char) : List Char → List Char
  | a :: t@(b :: _) =>
    (if (('a' ≤ a) && (a ≤ 'z')) && (('A' ≤ b) && (b ≤ 'Z')) then [a, sep]
     else [a]) ++ insertCaseSep sep t
  | l => l

/-- Replace each maximal run of characters satisfying `p` by the single
character `r` (the run-collapsing replacements of the case helpers). -/
def runsReplace (p : Char → Bool) (r : Char) : List Char → List Char
  | [] => []
  | [c] => if p c then [r] else [c]
  | a :: t@(b :: _) =>
    if p a && p b then runsReplace p r t
    else (if p a then r else a) :: runsReplace p r t

/-- A separator for `camelCase`/`pascalCase`: hyphen, underscore or
whitespace. -/
def isCaseSep (c : Char) : Bool :=
  c == '-' || c == '_' || isJsWs c

/-- The shared replacement of `camelCase` and `pascalCase`: each separator
run together with the following character (if any) becomes that character
upper-cased. -/
def camelReplace : List Char → List Char
  | [] => []
  | [c] => if isCaseSep c then [] else [c]
  | a :: t@(b :: rest) =>
    if isCaseSep a then
      if isCaseSep b then camelReplace t
      else Char.toUpper b :: camelReplace rest
    else a :: camelReplace t

/-- `TemplateEngine.camelCase`. -/
def camelCase (str : String) : String :=
  match camelReplace str.toList with
  | [] => ""
  | c :: cs =>
    String.mk ((if ('A' ≤ c) && (c ≤ 'Z') then Char.toLower c else c) :: cs)

/-- `TemplateEngine.pascalCase`. -/
def pascalCase (str : String) : String :=
  match camelReplace str.toList with
  | [] => ""
  | c :: cs =>
    String.mk ((if ('a' ≤ c) && (c ≤ 'z') then Char.toUpper c else c) :: cs)

/-- `TemplateEngine.kebabCase`. -/
def kebabCase (str : String) : String :=
  jsToLower (String.mk (runsReplace (fun c => isJsWs c || c == '_') '-'
    (insertCaseSep '-' str.toList)))

/-- `TemplateEngine.constantCase`. -/
def constantCase (str : String) : String :=
  jsToUpper (String.mk (runsReplace (fun c => c == '-' || isJsWs c) '_'
    (insertCaseSep '_' str.toList)))

/-- JSON string escaping as performed by `JSON.stringify` (the escapes that
can occur in the modelled data). -/
def jsonEscape (s : String) : String :=
  String.mk (s.toList.flatMap fun c =>
    if c == '\\' then ['\\', '\\']
    else if c == '"' then ['\\', '"']
    else if c == '\n' then ['\\', 'n']
    else if c == '\t' then ['\\', 't']
    else if c == '\r' then ['\\', 'r']
    else [c])

/-- A double-quoted JSON string literal. -/
def jsonQuote (s : String) : String :=
  "\"" ++ jsonEscape s ++ "\""

/-- An indentation run of `n` spaces. -/
def jsonIndentStr (n : Nat) : String :=
  String.mk (List.replicate n ' ')

mutual

/-- `JSON.stringify(value, null, 2)` at a given surrounding indent. -/
def jsonRender (indent : Nat) : Json → String
  | Json.str s => jsonQuote s
  | Json.num n => toString n
  | Json.bool b => if b then "true" else "false"
  | Json.null => "null"
  | Json.arr [] => "[]"
  | Json.arr (x :: xs) =>
    "[\n" ++ jsonRenderItems (indent + 2) (x :: xs) ++ "\n" ++
    jsonIndentStr indent ++ "]"
  | Json.obj [] => "\x7b\x7d"
  | Json.obj (kv :: kvs) =>
    "\x7b\n" ++ jsonRenderFields (indent + 2) (kv :: kvs) ++ "\n" ++
    jsonIndentStr indent ++ "\x7d"

/-- Comma-and-newline separated array items, each on its own indented line. -/
def jsonRenderItems (indent : Nat) : List Json → String
  | [] => ""
  | [x] => jsonIndentStr indent ++ jsonRender indent x
  | x :: y :: xs =>
    jsonIndentStr indent ++ jsonRender indent x ++ ",\n" ++
    jsonRenderItems indent (y :: xs)

/-- Comma-and-newline separated object fields, each on its own indented line. -/
def jsonRenderFields (indent : Nat) : List (String × Json) → String
  | [] => ""
  | [(k, v)] => jsonIndentStr indent ++ jsonQuote k ++ ": " ++ jsonRender indent v
  | (k, v) :: kv :: kvs =>
    jsonIndentStr indent ++ jsonQuote k ++ ": " ++ jsonRender indent v ++ ",\n" ++
    jsonRenderFields indent (kv :: kvs)

end

/-- The `stringify` Handlebars helper: `JSON.stringify(obj, null, 2)`. -/
def stringify (j : Json) : String :=
  jsonRender 0 j

/-- Handlebars member access `x.key` on a JSON object (missing members render
as the absent value). -/
def Json.getField (j : Json) (key : String) : Json :=
  match j with
  | Json.obj kvs => (((kvs.find? fun kv => kv.1 == key)).map Prod.snd).getD Json.null
  | _ => Json.null

/-- The field list of a JSON object (`{{#each obj}}` iteration order =
insertion order). -/
def Json.objFields : Json → List (String × Json)
  | Json.obj kvs => kvs
  | _ => []

/-- The rendering of `{{#if this.type}}{{this.type}}{{else}}any{{/if}}` for a
schema property value: its string `type` member when present and non-empty,
`any` otherwise. -/
def jsonTypeStr (v : Json) : String :=
  match Json.getField v "type" with
  | Json.str s => if s == "" then "any" else s
  | _ => "any"

/-! ## Template engine file contents (`template-engine.ts`)

Each `generate*` method compiles a fixed Handlebars template against the
configuration and writes the result.  The functions below produce the same
text by direct substitution (standalone Handlebars block-helper lines are
removed, as Handlebars does; braces, backticks and apostrophes in the fixed
template text are written with hexadecimal escapes).  Note that in
`generateToolFile` the template references `../integrations` at template
root depth, where Handlebars resolves it to no frame at all, so the
`context: ToolContext` parameter branch never renders. -/

/-- The rendered `src/index.ts` (`generateServerIndex`). -/
def serverIndexContent (config : RServerConfig) : String :=
  let toolImports := String.join (config.customTools.map fun t =>
    "import \x7b " ++ camelCase t.name ++ "Tool \x7d from \x27./tools/" ++
    kebabCase t.name ++ ".js\x27;\n")
  let integImports := String.join (config.integrations.map fun i =>
    "import \x7b " ++ camelCase i.name ++ "Integration \x7d from \x27./integrations/" ++
    kebabCase i.name ++ ".js\x27;\n")
  let integFields := String.join (config.integrations.map fun i =>
    "  private " ++ camelCase i.name ++ ": " ++ pascalCase i.name ++ "Integration;\n")
  let integInits := String.join (config.integrations.map fun i =>
    "    this." ++ camelCase i.name ++ " = new " ++ pascalCase i.name ++
    "Integration();\n")
  let toolList := String.join (config.customTools.map fun t =>
    "          \x7b\n            name: \x27" ++ kebabCase t.name ++
    "\x27,\n            description: \x27" ++ t.description ++
    "\x27,\n            inputSchema: " ++ stringify t.inputSchema ++
    ",\n          \x7d,\n")
  let toolCases := String.join (config.customTools.map fun t =>
    "          case \x27" ++ kebabCase t.name ++ "\x27:\n            return await " ++
    camelCase t.name ++ "Tool(args" ++
    (if config.integrations.isEmpty then "" else
      ", \x7b\n" ++
      String.join (config.integrations.map fun i =>
        "              " ++ camelCase i.name ++ ": this." ++ camelCase i.name ++ ",\n") ++
      "            \x7d") ++
    ");\n")
  "\nimport \x7b Server \x7d from \x27@modelcontextprotocol/sdk/server/index.js\x27;\n" ++
  "import \x7b StdioServerTransport \x7d from \x27@modelcontextprotocol/sdk/server/stdio.js\x27;\n" ++
  "import \x7b\n  CallToolRequestSchema,\n  ErrorCode,\n  ListToolsRequestSchema,\n  McpError,\n\x7d from \x27@modelcontextprotocol/sdk/types.js\x27;\n" ++
  "import \x7b z \x7d from \x27zod\x27;\n\n// Import generated tools\n" ++
  toolImports ++
  "\n// Import integrations\n" ++
  integImports ++
  "\nclass " ++ pascalCase config.name ++ "Server \x7b\n  private server: Server;\n  \n" ++
  integFields ++
  "\n  constructor() \x7b\n    this.server = new Server(\n      \x7b\n        name: \x27" ++
  config.name ++
  "\x27,\n        version: \x271.0.0\x27,\n      \x7d,\n      \x7b\n        capabilities: \x7b\n          tools: \x7b\x7d,\n        \x7d,\n      \x7d\n    );\n\n    // Initialize integrations\n" ++
  integInits ++
  "\n    this.setupToolHandlers();\n  \x7d\n\n  private setupToolHandlers(): void \x7b\n    // List available tools\n    this.server.setRequestHandler(ListToolsRequestSchema, async () => \x7b\n      return \x7b\n        tools: [\n" ++
  toolList ++
  "        ],\n      \x7d;\n    \x7d);\n\n    // Handle tool calls\n    this.server.setRequestHandler(CallToolRequestSchema, async (request) => \x7b\n      const \x7b name, arguments: args \x7d = request.params;\n\n      try \x7b\n        switch (name) \x7b\n" ++
  toolCases ++
  "          \n          default:\n            throw new McpError(\n              ErrorCode.MethodNotFound,\n              \x60Unknown tool: $\x7bname\x7d\x60\n            );\n        \x7d\n      \x7d catch (error) \x7b\n        const errorMessage = error instanceof Error ? error.message : \x27Unknown error\x27;\n        throw new McpError(\n          ErrorCode.InternalError,\n          \x60Error executing tool $\x7bname\x7d: $\x7berrorMessage\x7d\x60\n        );\n      \x7d\n    \x7d);\n  \x7d\n\n  async run(): Promise<void> \x7b\n    const transport = new StdioServerTransport();\n    await this.server.connect(transport);\n    console.error(\x27" ++
  config.name ++
  " running on stdio\x27);\n  \x7d\n\x7d\n\nconst server = new " ++
  pascalCase config.name ++
  "Server();\nserver.run().catch(console.error);\n"

/-- The rendered `package.json` (`generatePackageJson`): the same
`JSON.stringify(packageJson, null, 2)` payload. -/
def packageJsonContent (config : RServerConfig) : String :=
  stringify (Json.obj
    [("name", Json.str config.name),
     ("version", Json.str "1.0.0"),
     ("description", Json.str config.description),
     ("type", Json.str "module"),
     ("main", Json.str "dist/index.js"),
     ("scripts", Json.obj
       [("build", Json.str "tsc"),
        ("dev", Json.str "tsc --watch"),
        ("start", Json.str "node dist/index.js"),
        ("clean", Json.str "rm -rf dist")]),
     ("dependencies", Json.obj (config.dependencies.map fun dep => (dep, Json.str "latest"))),
     ("devDependencies", Json.obj
       [("@types/node", Json.str "^20.0.0"),
        ("typescript", Json.str "^5.0.0")])])

/-- The rendered `tsconfig.json` (`generateTsConfig`), a fixed payload. -/
def tsConfigContent : String :=
  stringify (Json.obj
    [("compilerOptions", Json.obj
       [("target", Json.str "ES2020"),
        ("module", Json.str "ES2020"),
        ("moduleResolution", Json.str "node"),
        ("esModuleInterop", Json.bool true),
        ("allowSyntheticDefaultImports", Json.bool true),
        ("strict", Json.bool true),
        ("skipLibCheck", Json.bool true),
        ("forceConsistentCasingInFileNames", Json.bool true),
        ("outDir", Json.str "./dist"),
        ("rootDir", Json.str "./src"),
        ("declaration", Json.bool true),
        ("sourceMap", Json.bool true)]),
     ("include", Json.arr [Json.str "src/**/*"]),
     ("exclude", Json.arr [Json.str "node_modules", Json.str "dist"])])

/-- The rendered `src/tools/index.ts` (`generateToolsIndex`). -/
def toolsIndexContent (config : RServerConfig) : String :=
  "\n// Export all generated tools\n" ++
  String.join (config.customTools.map fun t =>
    "export \x7b " ++ camelCase t.name ++ "Tool \x7d from \x27./" ++
    kebabCase t.name ++ ".js\x27;\n") ++
  "\n// Tool types\nexport interface ToolContext \x7b\n" ++
  String.join (config.integrations.map fun i =>
    "  " ++ camelCase i.name ++ ": " ++ pascalCase i.name ++ "Integration;\n") ++
  "\x7d\n"

/-- The rendered `.env.example` (`generateEnvFile`). -/
def envFileContent (config : RServerConfig) : String :=
  let envVars := String.intercalate "\n"
    ((config.integrations.flatMap fun i => i.envVars.getD []).map fun v => v ++ "=")
  "# Environment variables for " ++ config.name ++
  "\n# Copy this file to .env and fill in your values\n\n" ++ envVars ++ "\n"

/-- The rendered `README.md` (`generateReadme`). -/
def readmeContent (config : RServerConfig) : String :=
  "# " ++ config.name ++ "\n\n" ++ config.description ++
  "\n\n## Installation\n\n\x60\x60\x60bash\nnpm install\n\x60\x60\x60\n\n## Configuration\n\nCopy \x60.env.example\x60 to \x60.env\x60 and configure your environment variables:\n\n\x60\x60\x60bash\ncp .env.example .env\n\x60\x60\x60\n\n## Development\n\n\x60\x60\x60bash\n# Build the project\nnpm run build\n\n# Run in development mode\nnpm run dev\n\n# Start the server\nnpm start\n\x60\x60\x60\n\n## Available Tools\n\n" ++
  String.join (config.customTools.map fun t =>
    "### " ++ t.name ++ "\n\n" ++ t.description ++
    "\n\n**Input Schema:**\n\x60\x60\x60json\n" ++ stringify t.inputSchema ++
    "\n\x60\x60\x60\n\n") ++
  "\n## Integrations\n\n" ++
  String.join (config.integrations.map fun i =>
    "### " ++ i.name ++ "\n\n" ++ i.description ++ "\n\n" ++
    (if (i.envVars.getD []).isEmpty then "" else
      "**Required Environment Variables:**\n" ++
      String.join ((i.envVars.getD []).map fun v => "- \x60" ++ v ++ "\x60\n")) ++
    "\n")

/-- The rendered per-tool module (`generateToolFile`; the template context is
the tool merged with the configuration's integrations). -/
def toolFileContent (config : RServerConfig) (tool : RTool) : String :=
  "\nimport \x7b z \x7d from \x27zod\x27;\n" ++
  (if config.integrations.isEmpty then "" else
    "import \x7b ToolContext \x7d from \x27./index.js\x27;\n") ++
  "\n// Input validation schema\nconst " ++ camelCase tool.name ++
  "Schema = z.object(" ++ stringify (Json.getField tool.inputSchema "properties") ++
  ");\n\n/**\n * " ++ tool.description ++ "\n */\nexport async function " ++
  camelCase tool.name ++
  "Tool(\n  args: unknown\n): Promise<\x7b content: Array<\x7b type: string; text: string \x7d> \x7d> \x7b\n  // Validate input\n  const validatedArgs = " ++
  camelCase tool.name ++ "Schema.parse(args);\n\n  try \x7b\n" ++
  (if (tool.implementation.getD "") == "" then
    "    // TODO: Implement " ++ tool.name ++
    " tool logic\n    const result = \x7b\n      message: \"" ++ tool.name ++
    " tool executed successfully\",\n      args: validatedArgs\n    \x7d;\n\n    return \x7b\n      content: [\n        \x7b\n          type: \"text\",\n          text: JSON.stringify(result, null, 2)\n        \x7d\n      ]\n    \x7d;\n"
   else "    " ++ tool.implementation.getD "" ++ "\n") ++
  "  \x7d catch (error) \x7b\n    const errorMessage = error instanceof Error ? error.message : \x27Unknown error\x27;\n    return \x7b\n      content: [\n        \x7b\n          type: \"text\",\n          text: \x60Error in " ++
  tool.name ++
  " tool: $\x7berrorMessage\x7d\x60\n        \x7d\n      ]\n    \x7d;\n  \x7d\n\x7d\n"

/-- The rendered per-integration module (`generateIntegrationFile`). -/
def integrationFileContent (integration : RIntegration) : String :=
  let ev := integration.envVars.getD []
  let ms := integration.methods.getD []
  "\n" ++
  (if ev.isEmpty then "" else
    "// Load environment variables\n" ++
    String.join (ev.map fun v =>
      "const " ++ constantCase v ++ " = process.env." ++ v ++ ";\n")) ++
  "\n/**\n * " ++ integration.description ++ "\n */\nexport class " ++
  pascalCase integration.name ++ "Integration \x7b\n" ++
  (if ev.isEmpty then "" else
    String.join (ev.map fun v => "  private " ++ camelCase v ++ ": string;\n")) ++
  "\n  constructor() \x7b\n" ++
  (if ev.isEmpty then "" else
    String.join (ev.map fun v =>
      "    this." ++ camelCase v ++ " = " ++ constantCase v ++
      " || \x27\x27;\n    if (!this." ++ camelCase v ++
      ") \x7b\n      throw new Error(\x27" ++ v ++
      " environment variable is required\x27);\n    \x7d\n")) ++
  "  \x7d\n\n" ++
  (if ms.isEmpty then
    "  /**\n   * Example method - replace with actual integration methods\n   */\n  async exampleMethod(): Promise<string> \x7b\n    return \x27Integration " ++
    integration.name ++ " is ready\x27;\n  \x7d\n"
   else
    String.join (ms.map fun m =>
      "  /**\n   * " ++ m.description ++ "\n   */\n  async " ++ m.name ++ "(" ++
      String.intercalate ", " (m.parameters.map fun p => p.name ++ ": " ++ p.ty) ++
      "): Promise<" ++ m.returnType ++ "> \x7b\n" ++
      (if (m.implementation.getD "") == "" then
        "    // TODO: Implement " ++ m.name ++
        " method\n    throw new Error(\x27" ++ m.name ++
        " method not implemented\x27);\n"
       else "    " ++ m.implementation.getD "" ++ "\n") ++
      "  \x7d\n\n")) ++
  "\x7d\n"

/-- The rendered `src/types.ts` (`generateTypesFile`). -/
def typesFileContent (config : RServerConfig) : String :=
  "\n// Generated types for " ++ config.name ++ "\n\n" ++
  String.join (config.customTools.map fun t =>
    "export interface " ++ pascalCase t.name ++ "Args \x7b\n" ++
    String.join (((Json.getField t.inputSchema "properties").objFields).map fun kv =>
      "  " ++ kv.1 ++ ": " ++ jsonTypeStr kv.2 ++ ";\n") ++
    "\x7d\n\n") ++
  "\n" ++
  String.join (config.integrations.map fun i =>
    String.join ((i.methods.getD []).map fun m =>
      "export interface " ++ pascalCase i.name ++ pascalCase m.name ++
      "Params \x7b\n" ++
      String.join (m.parameters.map fun p => "  " ++ p.name ++ ": " ++ p.ty ++ ";\n") ++
      "\x7d\n\n")) ++
  "\n// Server configuration type\nexport interface ServerConfig \x7b\n  name: string;\n  description: string;\n  dependencies: string[];\n  customTools: GeneratedTool[];\n  integrations: IntegrationConfig[];\n\x7d\n\nexport interface GeneratedTool \x7b\n  name: string;\n  description: string;\n  inputSchema: any;\n  implementation?: string;\n\x7d\n\nexport interface IntegrationConfig \x7b\n  name: string;\n  description: string;\n  envVars?: string[];\n  methods?: Array<\x7b\n    name: string;\n    description: string;\n    parameters?: Array<\x7b\n      name: string;\n      type: string;\n    \x7d>;\n    returnType: string;\n    implementation?: string;\n  \x7d>;\n\x7d\n"

/-- `TemplateEngine.generateServer`: the full file tree written under
`outputDir`, in emission order.  Paths are `path.join` segment lists, so the
first segment is the output directory. -/
def generateServerFiles (config : RServerConfig) (outputDir : String) :
    List (List String × String) :=
  [([outputDir, "src", "index.ts"], serverIndexContent config),
   ([outputDir, "package.json"], packageJsonContent config),
   ([outputDir, "tsconfig.json"], tsConfigContent),
   ([outputDir, "src", "tools", "index.ts"], toolsIndexContent config),
   ([outputDir, ".env.example"], envFileContent config),
   ([outputDir, "README.md"], readmeContent config)] ++
  (config.customTools.map fun tool =>
    ([outputDir, "src", "tools", kebabCase tool.name ++ ".ts"],
     toolFileContent config tool)) ++
  (config.integrations.map fun integration =>
    ([outputDir, "src", "integrations", kebabCase integration.name ++ ".ts"],
     integrationFileContent integration)) ++
  [([outputDir, "src", "types.ts"], typesFileContent config)]

/-- The output-directory-relative view of a rendered tree: strip the leading
output-directory segment from every path. -/
def relTree (files : List (List String × String)) : List (List String × String) :=
  files.map fun f => (f.1.drop 1, f.2)


/-! ## Concrete instances used by the verification -/

/-- The two core dependencies every configuration receives. -/
def coreDependencies : List String :=
  ["@modelcontextprotocol/sdk", "zod"]

/-- An analysis whose six declared categories match all six catalog
patterns. -/
def manyCategoriesAnalysis : Analysis :=
  { summary := ""
    primaryActions := []
    dataTypes := []
    services := []
    complexity := "simple"
    toolCategories := ["api", "file", "database", "notification", "processing", "auth"]
    suggestedIntegrations := []
    keyFeatures := []
    estimatedTools := 0 }

/-- An analysis suggesting five catalog integrations by exact id. -/
def manyIntegrationsAnalysis : Analysis :=
  { summary := ""
    primaryActions := []
    dataTypes := []
    services := []
    complexity := "simple"
    toolCategories := []
    suggestedIntegrations := ["github", "slack", "postgresql", "sendgrid", "aws-s3"]
    keyFeatures := []
    estimatedTools := 0 }

/-- An analysis whose categories and actions match no catalog pattern. -/
def noMatchAnalysis : Analysis :=
  { summary := ""
    primaryActions := ["zzz"]
    dataTypes := []
    services := []
    complexity := "simple"
    toolCategories := ["graphics"]
    suggestedIntegrations := []
    keyFeatures := []
    estimatedTools := 0 }

/-- The empty JSON-Schema object. -/
def emptySchema : ConfigSchema :=
  { properties := [], required := [] }

/-- The keyword-table categories exactly as the spec states them:
github maps to api, slack to notification, database or sql to database, file
or upload to file, email to notification, with api as the default when
nothing matched.  Written from the spec's words for comparison with
`createFallbackAnalysis`. -/
def specFallbackCategories (description : String) : List String :=
  let l := jsToLower description
  let cats :=
    (if strIncludes l "github" then ["api"] else []) ++
    (if strIncludes l "slack" then ["notification"] else []) ++
    (if strIncludes l "database" || strIncludes l "sql" then ["database"] else []) ++
    (if strIncludes l "file" || strIncludes l "upload" then ["file"] else []) ++
    (if strIncludes l "email" then ["notification"] else [])
  if cats.isEmpty then ["api"] else cats

/-- The free-text input of concrete scenario A. -/
def scenarioADescription : String :=
  "send Slack notifications when a GitHub issue is created"

/-- A concrete successful synthesis payload. -/
def scenarioToolData : ToolData :=
  { name := "issue-notifier"
    description := "Notify Slack about GitHub issues"
    inputSchema := emptySchema
    outputSchema := emptySchema
    implementation := "" }

/-- A synthesis capability that succeeds on every pattern with the same
payload. -/
def scenarioSynth : Analysis → ToolPattern → Option ToolData :=
  fun _ _ => some scenarioToolData

/-- A synthesis capability that returns the same tool name for every
pattern. -/
def constantNameSynth : Analysis → ToolPattern → Option ToolData :=
  fun _ _ => some
    { name := "My Tool"
      description := "d"
      inputSchema := emptySchema
      outputSchema := emptySchema
      implementation := "" }

/-- A synthesis capability that names each tool after its pattern id, so all
names are pairwise distinct. -/
def patternIdSynth : Analysis → ToolPattern → Option ToolData :=
  fun _ p => some
    { name := p.id
      description := "d"
      inputSchema := emptySchema
      outputSchema := emptySchema
      implementation := "" }

/-- The integration of concrete scenario C: id `sendgrid` with exactly the
configuration-schema properties `apiKey` and `fromEmail`. -/
def sendgridScenarioIntegration : IntegrationConfig :=
  { id := "sendgrid"
    name := "sendgrid-email"
    displayName := "SendGrid Email"
    description := "Send emails using SendGrid service"
    dependencies := ["@sendgrid/mail"]
    authType := "api-key"
    environmentVariables := ["SENDGRID_API_KEY"]
    configSchema :=
      { properties :=
          [("apiKey", { ty := "string", description := some "SendGrid API key" }),
           ("fromEmail", { ty := "string", description := some "Default sender email" })]
        required := ["apiKey", "fromEmail"] } }

/-- Scenario D: the tool named `Get Weather`, built through `createTool`. -/
def getWeatherTool1 : RTool :=
  createTool "Get Weather" "Get the current weather"
    [("city", Json.obj [("type", Json.str "string")])] none

/-- Scenario D: a second tool whose name sanitizes to the same string. -/
def getWeatherTool2 : RTool :=
  createTool "get-weather" "Get the weather again"
    [("city", Json.obj [("type", Json.str "string")])] none

/-- Scenario D: a basic configuration with `Get Weather` added twice through
`addTool`. -/
def weatherConfigTwice : RServerConfig :=
  addTool (addTool (createBasicConfig "Weather Server" "Weather tools") getWeatherTool1)
    getWeatherTool2

/-! ## List lemmas about the JavaScript idioms -/

theorem mem_foldl_jsSetAdd (l : List String) :
    ∀ (acc : List String) (x : String),
      x ∈ l.foldl jsSetAdd acc ↔ x ∈ acc ∨ x ∈ l := by
  induction l with
  | nil => simp
  | cons a t ih =>
    intro acc x
    simp only [List.foldl_cons]
    rw [ih]
    unfold jsSetAdd
    by_cases h : a ∈ acc
    · simp only [h, if_true, List.mem_cons]
      constructor
      · rintro (hx | hx)
        · exact Or.inl hx
        · exact Or.inr (Or.inr hx)
      · rintro (hx | hx | hx)
        · exact Or.inl hx
        · exact Or.inl (hx ▸ h)
        · exact Or.inr hx
    · simp only [h, if_false, List.mem_append, List.mem_singleton, List.mem_cons]
      tauto

theorem nodup_foldl_jsSetAdd (l : List String) :
    ∀ acc : List String, acc.Nodup → (l.foldl jsSetAdd acc).Nodup := by
  induction l with
  | nil => intro acc h; simpa using h
  | cons a t ih =>
    intro acc hacc
    simp only [List.foldl_cons]
    apply ih
    unfold jsSetAdd
    by_cases h : a ∈ acc
    · simpa [h] using hacc
    · simp [h, List.nodup_append, hacc]

theorem mem_of_mem_dedupByKeyGo (key : α → String) :
    ∀ (seen : List String) (l : List α) (x : α),
      x ∈ dedupByKeyGo key seen l → x ∈ l := by
  intro seen l
  induction l generalizing seen with
  | nil => intro x hx; simp [dedupByKeyGo] at hx
  | cons a t ih =>
    intro x hx
    unfold dedupByKeyGo at hx
    by_cases h : key a ∈ seen
    · simp only [h, if_true] at hx
      exact List.mem_cons_of_mem _ (ih seen x hx)
    · simp only [h, if_false, List.mem_cons] at hx
      rcases hx with hx | hx
      · exact hx ▸ List.mem_cons_self a t
      · exact List.mem_cons_of_mem _ (ih _ x hx)

theorem key_notin_seen_of_mem_dedupByKeyGo (key : α → String) :
    ∀ (seen : List String) (l : List α) (x : α),
      x ∈ dedupByKeyGo key seen l → key x ∉ seen := by
  intro seen l
  induction l generalizing seen with
  | nil => intro x hx; simp [dedupByKeyGo] at hx
  | cons a t ih =>
    intro x hx
    unfold dedupByKeyGo at hx
    by_cases h : key a ∈ seen
    · simp only [h, if_true] at hx
      exact ih seen x hx
    · simp only [h, if_false, List.mem_cons] at hx
      rcases hx with hx | hx
      · exact hx ▸ h
      · intro hmem
        exact ih _ x hx (List.mem_cons_of_mem _ hmem)

theorem nodup_keys_dedupByKeyGo (key : α → String) :
    ∀ (seen : List String) (l : List α),
      ((dedupByKeyGo key seen l).map key).Nodup := by
  intro seen l
  induction l generalizing seen with
  | nil => simp [dedupByKeyGo]
  | cons a t ih =>
    unfold dedupByKeyGo
    by_cases h : key a ∈ seen
    · simpa [h] using ih seen
    · simp only [h, if_false, List.map_cons, List.nodup_cons]
      refine ⟨?_, ih _⟩
      intro hmem
      rcases List.mem_map.mp hmem with ⟨x, hx, hkx⟩
      exact key_notin_seen_of_mem_dedupByKeyGo key _ _ x hx
        (hkx ▸ List.mem_cons_self _ _)

theorem mem_of_mem_dedupByKey (key : α → String) (l : List α) (x : α)
    (hx : x ∈ dedupByKey key l) : x ∈ l :=
  mem_of_mem_dedupByKeyGo key [] l x hx

theorem nodup_keys_dedupByKey (key : α → String) (l : List α) :
    ((dedupByKey key l).map key).Nodup :=
  nodup_keys_dedupByKeyGo key [] l

/-! ## C2: dependency closure -/


/-- C2.  For every resolved configuration, the dependencies list holds a
string exactly when it is a core dependency or declared by a selected
pattern or by a selected integration, and it holds no duplicates. -/
theorem resolved_dependencies_closure
    (analyze : String → Option Analysis)
    (synth : Analysis → ToolPattern → Option ToolData) (now : Nat)
    (description : String) (dep : String) :
    (dep ∈ (generateServerConfig analyze synth now description).dependencies ↔
      dep ∈ coreDependencies ∨
      (∃ p ∈ (generateServerConfig analyze synth now description).patterns,
        dep ∈ p.dependencies) ∨
      (∃ i ∈ (generateServerConfig analyze synth now description).integrations,
        dep ∈ i.dependencies)) ∧
    (generateServerConfig analyze synth now description).dependencies.Nodup := by
  constructor
  · show dep ∈ calculateDependencies _ _ ↔ _
    unfold calculateDependencies
    rw [mem_foldl_jsSetAdd]
    simp only [coreDependencies, List.mem_append, List.mem_flatMap,
      List.mem_cons, List.not_mem_nil, false_or, List.mem_singleton, or_assoc]
    exact Iff.rfl
  · exact nodup_foldl_jsSetAdd _ [] (by simp)

/-! ## C4: cardinality caps -/


/-- C4.  Pattern selection never returns more than 5 patterns (so at most 5
tools are generated) and integration selection never more than 3
integrations; the caps are reached: six matching categories are capped to 5
patterns, five matching integrations to 3. -/
theorem selection_caps :
    (∀ analysis : Analysis,
      (selectToolPatterns analysis).length ≤ 5 ∧
      (selectIntegrations analysis).length ≤ 3 ∧
      ∀ (synth : Analysis → ToolPattern → Option ToolData) (now : Nat),
        (generateCustomTools synth now analysis (selectToolPatterns analysis)).length ≤ 5) ∧
    (selectToolPatterns manyCategoriesAnalysis).length = 5 ∧
    (selectIntegrations manyIntegrationsAnalysis).length = 3 := by
  refine ⟨fun analysis => ⟨?_, ?_, ?_⟩, by decide, by decide⟩
  · exact List.length_take_le 5 _
  · exact List.length_take_le 3 _
  · intro synth now
    exact le_trans (List.length_filterMap_le _ _) (List.length_take_le 5 _)

/-! ## C10: default pattern -/


/-- C10.  Pattern selection always returns at least one pattern; when no
candidate matched at all, the first catalog pattern (`api-request`) is
selected by default. -/
theorem selectToolPatterns_nonempty (analysis : Analysis) :
    selectToolPatterns analysis ≠ [] ∧
    (patternCandidates analysis = [] →
      selectToolPatterns analysis = [apiRequestPattern]) := by
  constructor
  · unfold selectToolPatterns
    cases h : dedupByKey (fun p => p.id) (patternCandidates analysis) with
    | nil => simp [h]
    | cons a t => simp [h]
  · intro h
    simp [selectToolPatterns, h, dedupByKey, dedupByKeyGo]

/-- Witness for C10: a concrete no-match analysis receives exactly the
default `api-request` pattern. -/
theorem selectToolPatterns_nonempty_witness :
    patternCandidates noMatchAnalysis = [] ∧
    selectToolPatterns noMatchAnalysis = [apiRequestPattern] :=
  ⟨by decide, (selectToolPatterns_nonempty noMatchAnalysis).2 (by decide)⟩

/-! ## C3: fallback on Analyze failure -/

/-- C3.  When the Analyze capability fails, the resolver still returns a
configuration (the embedding is a total function: the failure is absorbed by
`createFallbackAnalysis`) whose analysis is the fallback analysis: its
complexity is `simple` and its tool categories are exactly those of the
spec's keyword table. -/
theorem fallback_on_analysis_failure
    (synth : Analysis → ToolPattern → Option ToolData) (now : Nat)
    (description : String) :
    (generateServerConfig (fun _ => none) synth now description).metadata.aiAnalysis =
      createFallbackAnalysis description ∧
    (createFallbackAnalysis description).complexity = "simple" ∧
    (createFallbackAnalysis description).toolCategories =
      specFallbackCategories description ∧
    (generateServerConfig (fun _ => none) synth now description).patterns =
      selectToolPatterns (createFallbackAnalysis description) :=
  ⟨rfl, rfl, rfl, rfl⟩

/-! ## C5: environment variables -/

theorem recordSet_append (m : List (String × String)) (k v : String)
    (h : k ∉ m.map Prod.fst) : recordSet m k v = m ++ [(k, v)] := by
  unfold recordSet
  rw [if_neg]
  simp only [List.any_eq_true, beq_iff_eq, not_exists]
  intro kv hkv
  exact h (List.mem_map.mpr ⟨kv, hkv.1, hkv.2⟩)

theorem foldl_recordSet_of_nodup_keys :
    ∀ (entries init : List (String × String)),
      ((init ++ entries).map Prod.fst).Nodup →
      entries.foldl (fun m kv => recordSet m kv.1 kv.2) init = init ++ entries := by
  intro entries
  induction entries with
  | nil => intro init _; simp
  | cons kv rest ih =>
    intro init h
    have hk : kv.1 ∉ init.map Prod.fst := by
      rw [List.map_append, List.nodup_append] at h
      intro hmem
      exact h.2.2 hmem (by simp)
    simp only [List.foldl_cons]
    rw [recordSet_append _ _ _ hk]
    have h' : (((init ++ [kv]) ++ rest).map Prod.fst).Nodup := by
      rw [List.append_assoc]
      simpa using h
    rw [ih _ h']
    simp

theorem generateEnvironmentVariables_eq_fold (l : List IntegrationConfig) :
    generateEnvironmentVariables l =
      (envEntries l).foldl (fun m kv => recordSet m kv.1 kv.2) [] := by
  suffices h : ∀ init : List (String × String),
      l.foldl
        (fun envVars integration =>
          integration.configSchema.properties.foldl
            (fun envVars kv =>
              recordSet envVars (envKeyFor integration kv.1) (envValFor integration kv))
            envVars)
        init =
      (envEntries l).foldl (fun m kv => recordSet m kv.1 kv.2) init by
    exact h []
  induction l with
  | nil => intro init; rfl
  | cons i rest ih =>
    intro init
    simp only [List.foldl_cons, envEntries, List.flatMap_cons, List.foldl_append,
      List.foldl_map]
    exact ih _

theorem generateEnvironmentVariables_eq_entries (l : List IntegrationConfig)
    (h : ((envEntries l).map Prod.fst).Nodup) :
    generateEnvironmentVariables l = envEntries l := by
  rw [generateEnvironmentVariables_eq_fold]
  simpa using foldl_recordSet_of_nodup_keys (envEntries l) [] (by simpa using h)

theorem filter_key_eq_nil (l : List (String × String)) (k : String)
    (h : k ∉ l.map Prod.fst) : l.filter (fun e => e.1 == k) = [] := by
  induction l with
  | nil => rfl
  | cons e rest ih =>
    simp only [List.map_cons, List.mem_cons, not_or] at h
    rw [List.filter_cons, if_neg]
    · exact ih h.2
    · simp only [beq_iff_eq]
      exact fun hk => h.1 (hk ▸ rfl)

theorem filter_key_eq_singleton :
    ∀ (entries : List (String × String)) (k v : String),
      (entries.map Prod.fst).Nodup → (k, v) ∈ entries →
      entries.filter (fun e => e.1 == k) = [(k, v)] := by
  intro entries
  induction entries with
  | nil => intro k v _ hmem; simp at hmem
  | cons e rest ih =>
    intro k v hnd hmem
    rw [List.map_cons, List.nodup_cons] at hnd
    rcases List.mem_cons.mp hmem with he | he
    · subst he
      rw [List.filter_cons, if_pos (by simp)]
      rw [filter_key_eq_nil rest k hnd.1]
    · have hk : e.1 ≠ k := by
        intro hkeq
        exact hnd.1 (hkeq ▸ List.mem_map.mpr ⟨(k, v), he, rfl⟩)
      rw [List.filter_cons, if_neg (by simpa using hk)]
      exact ih k v hnd.2 he

/-- C5.  When the produced environment-variable keys collide nowhere (as for
every selection from the catalog), the configuration's environment-variable
map has, for every selected integration and every declared
configuration-schema property, exactly one entry: its key is the upper-cased
integration id, an underscore and the upper-cased property name, its value
the property's description (or the generated default); and the resolved
configuration's `environmentVariables` field is exactly this map over its
selected integrations. -/
theorem env_entries_per_property :
    (∀ l : List IntegrationConfig,
      ((envEntries l).map Prod.fst).Nodup →
      generateEnvironmentVariables l = envEntries l ∧
      ∀ i ∈ l, ∀ kv ∈ i.configSchema.properties,
        (generateEnvironmentVariables l).filter
            (fun e => e.1 == envKeyFor i kv.1) =
          [(envKeyFor i kv.1, envValFor i kv)]) ∧
    (∀ (analyze : String → Option Analysis)
       (synth : Analysis → ToolPattern → Option ToolData) (now : Nat)
       (description : String),
      (generateServerConfig analyze synth now description).environmentVariables =
        generateEnvironmentVariables
          (generateServerConfig analyze synth now description).integrations) := by
  constructor
  · intro l h
    have he := generateEnvironmentVariables_eq_entries l h
    refine ⟨he, ?_⟩
    intro i hi kv hkv
    rw [he]
    apply filter_key_eq_singleton _ _ _ h
    exact List.mem_flatMap.mpr ⟨i, hi, List.mem_map.mpr ⟨kv, hkv, rfl⟩⟩
  · intro analyze synth now description
    rfl

/-- Witness for C5: scenario C.  An integration with id `sendgrid` and
schema properties `apiKey` and `fromEmail` yields exactly the keys
`SENDGRID_APIKEY` and `SENDGRID_FROMEMAIL`, with exactly one entry per
property. -/
theorem env_entries_per_property_witness :
    ((envEntries [sendgridScenarioIntegration]).map Prod.fst).Nodup ∧
    (generateEnvironmentVariables [sendgridScenarioIntegration]).map Prod.fst =
      ["SENDGRID_APIKEY", "SENDGRID_FROMEMAIL"] ∧
    (generateEnvironmentVariables [sendgridScenarioIntegration]).filter
        (fun e => e.1 == envKeyFor sendgridScenarioIntegration "apiKey") =
      [(envKeyFor sendgridScenarioIntegration "apiKey",
        envValFor sendgridScenarioIntegration
          ("apiKey", { ty := "string", description := some "SendGrid API key" }))] :=
  ⟨by decide, by decide,
    (env_entries_per_property.1 [sendgridScenarioIntegration] (by decide)).2
      sendgridScenarioIntegration (by decide)
      ("apiKey", { ty := "string", description := some "SendGrid API key" })
      (by decide)⟩

/-! ## C1: uniqueness in resolved configurations -/

theorem generateCustomTools_names
    (synth : Analysis → ToolPattern → Option ToolData) (now : Nat)
    (a : Analysis) :
    ∀ ps : List ToolPattern,
      (generateCustomTools synth now a ps).map (fun t => jsToLower t.name) =
        (ps.filterMap fun p => synth a p).map (fun td => jsToLower td.name) := by
  intro ps
  induction ps with
  | nil => rfl
  | cons p rest ih =>
    unfold generateCustomTools at ih ⊢
    rw [List.filterMap_cons, List.filterMap_cons]
    cases h : synth a p <;> simp [h, buildCustomTool, ih]

theorem integrationCandidates_mem_catalog (a : Analysis)
    (x : IntegrationConfig) (hx : x ∈ integrationCandidates a) :
    x ∈ INTEGRATIONS := by
  unfold integrationCandidates at hx
  rcases List.mem_append.mp hx with h | h
  · rcases List.mem_filterMap.mp h with ⟨sid, _, hfind⟩
    exact List.mem_of_find?_eq_some hfind
  · rcases List.mem_flatMap.mp h with ⟨s, _, hmem⟩
    unfold findIntegrations at hmem
    exact List.mem_of_mem_filter hmem

theorem INTEGRATIONS_lower_ids_nodup :
    (INTEGRATIONS.map (fun i => jsToLower i.id)).Nodup := by decide

theorem selectIntegrations_lower_ids_nodup (a : Analysis) :
    ((selectIntegrations a).map (fun i => jsToLower i.id)).Nodup := by
  have hsub : List.Sublist (selectIntegrations a)
      (dedupByKey (fun i => i.id) (integrationCandidates a)) :=
    List.take_sublist 3 _
  have hids : ((selectIntegrations a).map (fun i => i.id)).Nodup :=
    List.Nodup.sublist (hsub.map _)
      (nodup_keys_dedupByKey (fun i => i.id) (integrationCandidates a))
  have hself : (selectIntegrations a).Nodup := hids.of_map
  refine hself.map_on ?_
  intro x hx y hy hxy
  have hxc : x ∈ INTEGRATIONS :=
    integrationCandidates_mem_catalog a x
      (mem_of_mem_dedupByKey _ _ x (hsub.subset hx))
  have hyc : y ∈ INTEGRATIONS :=
    integrationCandidates_mem_catalog a y
      (mem_of_mem_dedupByKey _ _ y (hsub.subset hy))
  exact List.inj_on_of_nodup_map INTEGRATIONS_lower_ids_nodup hxc hyc hxy

/-- C1 (corrected).  In every resolved configuration the integration ids are
unique even after case-folding; the generated tool names, however, are not
deduplicated by the resolver: they are exactly the names the synthesis
capability returned, so they are unique (case-insensitively) precisely when
those are. -/
theorem resolver_uniqueness (analyze : String → Option Analysis)
    (synth : Analysis → ToolPattern → Option ToolData) (now : Nat)
    (description : String) :
    ((generateServerConfig analyze synth now description).integrations.map
      (fun i => jsToLower i.id)).Nodup ∧
    ((((selectToolPatterns (analysisOf analyze description)).filterMap
        (fun p => synth (analysisOf analyze description) p)).map
        (fun td => jsToLower td.name)).Nodup →
      ((generateServerConfig analyze synth now description).customTools.map
        (fun t => jsToLower t.name)).Nodup) := by
  constructor
  · exact selectIntegrations_lower_ids_nodup _
  · intro h
    show ((generateCustomTools synth now (analysisOf analyze description)
      (selectToolPatterns (analysisOf analyze description))).map
        (fun t => jsToLower t.name)).Nodup
    rw [generateCustomTools_names]
    exact h

/-- Witness for C1: with a synthesis capability that names tools after their
pattern ids, a resolved configuration has case-insensitively unique tool
names and integration ids. -/
theorem resolver_uniqueness_witness :
    ((((selectToolPatterns (analysisOf (fun _ => none) "github slack")).filterMap
        (fun p => patternIdSynth (analysisOf (fun _ => none) "github slack") p)).map
        (fun td => jsToLower td.name)).Nodup) ∧
    ((generateServerConfig (fun _ => none) patternIdSynth 0 "github slack").customTools.map
      (fun t => jsToLower t.name)).Nodup ∧
    ((generateServerConfig (fun _ => none) patternIdSynth 0 "github slack").integrations.map
      (fun i => jsToLower i.id)).Nodup :=
  ⟨by decide,
   (resolver_uniqueness (fun _ => none) patternIdSynth 0 "github slack").2 (by decide),
   (resolver_uniqueness (fun _ => none) patternIdSynth 0 "github slack").1⟩

/-- Counterexample for C1 as stated: when the synthesis capability returns
the same tool name for two selected patterns, the resolved configuration
contains two tools with identical case-folded names — the resolver performs
no tool-name deduplication. -/
theorem resolver_duplicate_names_counterexample :
    ((generateServerConfig (fun _ => none) constantNameSynth 0 "github slack").customTools.map
      (fun t => jsToLower t.name)) = ["my tool", "my tool"] ∧
    ¬ ((generateServerConfig (fun _ => none) constantNameSynth 0 "github slack").customTools.map
      (fun t => jsToLower t.name)).Nodup := by
  constructor
  · decide
  · decide

/-! ## C6: matcher characterization -/

/-- C6 (corrected).  The matchers select exactly these catalog entries, in
catalog order (they are filters of the static catalogs, hence deterministic
and order-preserving): a pattern is selected when some lowered keyword
matches an action or an example phrase by case-insensitive substring
containment in either direction, or equals the category name exactly (not by
substring); an integration is selected when one of its id, name, display
name or description contains a lowered keyword (one direction only). -/
theorem matcher_characterization :
    (∀ (keywords actions : List String) (p : ToolPattern),
      p ∈ findMatchingPatterns keywords actions ↔
        p ∈ TOOL_PATTERNS ∧
        ∃ k ∈ (keywords ++ actions).map jsToLower,
          ((∃ a ∈ p.actions, strIncludes (jsToLower a) k = true ∨
              strIncludes k (jsToLower a) = true) ∨
           (∃ e ∈ p.examples, strIncludes (jsToLower e) k = true ∨
              strIncludes k (jsToLower e) = true) ∨
           k = jsToLower p.category)) ∧
    (∀ (keywords : List String) (i : IntegrationConfig),
      i ∈ findMatchingIntegrations keywords ↔
        i ∈ INTEGRATIONS ∧
        ∃ k ∈ keywords.map jsToLower,
          (strIncludes (jsToLower i.id) k = true ∨
           strIncludes (jsToLower i.name) k = true ∨
           strIncludes (jsToLower i.displayName) k = true ∨
           strIncludes (jsToLower i.description) k = true)) ∧
    (∀ keywords actions,
      List.Sublist (findMatchingPatterns keywords actions) TOOL_PATTERNS) ∧
    (∀ keywords, List.Sublist (findMatchingIntegrations keywords) INTEGRATIONS) := by
  refine ⟨?_, ?_, ?_, ?_⟩
  · intro ks as p
    unfold findMatchingPatterns
    simp only [List.mem_filter, List.any_eq_true, Bool.or_eq_true, List.elem_iff]
    constructor
    · rintro ⟨hp, h⟩
      refine ⟨hp, ?_⟩
      rcases h with (⟨a, ha, k, hk, hm⟩ | ⟨e, he, k, hk, hm⟩) | hcat
      · exact ⟨k, hk, Or.inl ⟨a, ha, hm⟩⟩
      · exact ⟨k, hk, Or.inr (Or.inl ⟨e, he, hm⟩)⟩
      · exact ⟨jsToLower p.category, hcat, Or.inr (Or.inr rfl)⟩
    · rintro ⟨hp, k, hk, ⟨a, ha, hm⟩ | ⟨e, he, hm⟩ | hcat⟩
      · exact ⟨hp, Or.inl (Or.inl ⟨a, ha, k, hk, hm⟩)⟩
      · exact ⟨hp, Or.inl (Or.inr ⟨e, he, k, hk, hm⟩)⟩
      · exact ⟨hp, Or.inr (hcat ▸ hk)⟩
  · intro ks i
    unfold findMatchingIntegrations
    simp only [List.mem_filter, List.any_eq_true, Bool.or_eq_true, or_assoc]
  · intro ks as
    exact List.filter_sublist _
  · intro ks
    exact List.filter_sublist _

/-- Counterexample for C6 as stated: the keyword `processin` is a substring
of the category name `processing` (so the spec-worded bidirectional matcher
selects the data-processing pattern) but the source matcher selects nothing,
because its category test is exact membership; the keyword `slackbot`
contains the integration id `slack` (so the spec-worded matcher selects the
Slack integration) but the source integration matcher selects nothing,
because it tests only candidate-contains-keyword. -/
theorem matcher_counterexample :
    findMatchingPatterns ["processin"] [] = [] ∧
    dataProcessingPattern ∈ specFindMatchingPatterns ["processin"] [] ∧
    findMatchingIntegrations ["slackbot"] = [] ∧
    slackIntegration ∈ specFindMatchingIntegrations ["slackbot"] := by
  refine ⟨by decide, by decide, by decide, by decide⟩

/-! ## C7: concrete scenario A -/

/-- C7 (corrected).  On scenario A's input with the Analyze capability
failing, the fallback analysis suggests exactly the github and slack
integrations and the api and notification categories, the resolved
configuration's integrations are exactly github and slack (hence at least
two), and its selected patterns include the notification-category pattern;
a tool of notification origin is generated whenever the synthesis
capability succeeds on that pattern (with failing synthesis the tool list
can be empty). -/
theorem scenarioA_fallback
    (synth : Analysis → ToolPattern → Option ToolData) (now : Nat) :
    (createFallbackAnalysis scenarioADescription).suggestedIntegrations =
      ["github", "slack"] ∧
    (createFallbackAnalysis scenarioADescription).toolCategories =
      ["api", "notification"] ∧
    ((generateServerConfig (fun _ => none) synth now scenarioADescription).integrations.map
      (fun i => i.id)) = ["github", "slack"] ∧
    2 ≤ (generateServerConfig (fun _ => none) synth now
      scenarioADescription).integrations.length ∧
    notificationSenderPattern ∈
      (generateServerConfig (fun _ => none) synth now scenarioADescription).patterns ∧
    (∀ td : ToolData,
      synth (createFallbackAnalysis scenarioADescription) notificationSenderPattern =
        some td →
      ∃ t ∈ (generateServerConfig (fun _ => none) synth now
          scenarioADescription).customTools,
        t.patternId = "notification-sender") := by
  refine ⟨by decide, by decide, ?_, ?_, ?_, ?_⟩
  · show (selectIntegrations (analysisOf (fun _ => none) scenarioADescription)).map
        (fun i => i.id) = ["github", "slack"]
    decide
  · show 2 ≤ (selectIntegrations (analysisOf (fun _ => none) scenarioADescription)).length
    decide
  · show notificationSenderPattern ∈
        selectToolPatterns (analysisOf (fun _ => none) scenarioADescription)
    decide
  intro td htd
  have hps : selectToolPatterns (analysisOf (fun _ => none) scenarioADescription) =
      [apiRequestPattern, notificationSenderPattern] := by decide
  have htd' : synth (analysisOf (fun _ => none) scenarioADescription)
      notificationSenderPattern = some td := htd
  show ∃ t ∈ generateCustomTools synth now
      (analysisOf (fun _ => none) scenarioADescription)
      (selectToolPatterns (analysisOf (fun _ => none) scenarioADescription)),
    t.patternId = "notification-sender"
  rw [hps]
  refine ⟨buildCustomTool notificationSenderPattern now td, ?_, rfl⟩
  unfold generateCustomTools
  rw [List.filterMap_cons, List.filterMap_cons, List.filterMap_nil]
  cases h1 : synth (analysisOf (fun _ => none) scenarioADescription) apiRequestPattern <;>
    simp [h1, htd']

/-- Witness for C7: with a synthesis capability that succeeds, the scenario-A
configuration does contain a tool originating from the notification-sender
pattern, alongside the github and slack integrations. -/
theorem scenarioA_fallback_witness :
    scenarioSynth (createFallbackAnalysis scenarioADescription)
      notificationSenderPattern = some scenarioToolData ∧
    (∃ t ∈ (generateServerConfig (fun _ => none) scenarioSynth 0
        scenarioADescription).customTools,
      t.patternId = "notification-sender") ∧
    ((generateServerConfig (fun _ => none) scenarioSynth 0
        scenarioADescription).integrations.map (fun i => i.id)) =
      ["github", "slack"] :=
  ⟨rfl,
   (scenarioA_fallback scenarioSynth 0).2.2.2.2.2 scenarioToolData rfl,
   (scenarioA_fallback scenarioSynth 0).2.2.1⟩

/-- Counterexample for C7 as stated: the Analyze capability being
unavailable says nothing about per-pattern synthesis; when synthesis also
fails the configuration has no tools at all — in particular none of
category notification — while the integrations are still github and slack. -/
theorem scenarioA_counterexample :
    (generateServerConfig (fun _ => none) (fun _ _ => none) 0
      scenarioADescription).customTools = [] ∧
    ((generateServerConfig (fun _ => none) (fun _ _ => none) 0
        scenarioADescription).integrations.map (fun i => i.id)) =
      ["github", "slack"] :=
  ⟨by decide, by decide⟩

/-! ## C8: addTool and duplicate names -/

/-- C8 (corrected).  `addTool` validates nothing and never fails: it returns
a fresh configuration with the tool appended (its other fields, hence the
input configuration, untouched).  A duplicate case-folded tool name is only
reported later by `validateConfig` — as the message `Duplicate tool names
detected` — and only when the configuration holds at least one integration,
because the duplicate checks sit inside the loop over integrations. -/
theorem addTool_no_validation (c : RServerConfig) (t₁ t₂ : RTool)
    (hint : c.integrations ≠ [])
    (hname : jsToLower t₁.name = jsToLower t₂.name) :
    (addTool (addTool c t₁) t₂).customTools = c.customTools ++ [t₁, t₂] ∧
    (addTool (addTool c t₁) t₂).integrations = c.integrations ∧
    (addTool (addTool c t₁) t₂).dependencies = c.dependencies ∧
    "Duplicate tool names detected" ∈
      validateConfig (addTool (addTool c t₁) t₂) := by
  have hct : (addTool (addTool c t₁) t₂).customTools = c.customTools ++ [t₁, t₂] := by
    simp [addTool]
  refine ⟨hct, rfl, rfl, ?_⟩
  have hnd : ¬ ((addTool (addTool c t₁) t₂).customTools.map
      fun t => jsToLower t.name).Nodup := by
    rw [hct]
    intro h
    have hsub : List.Sublist [jsToLower t₂.name, jsToLower t₂.name]
        ((c.customTools.map fun t => jsToLower t.name) ++
          [jsToLower t₂.name, jsToLower t₂.name]) :=
      List.sublist_append_right _ _
    have h2 : ((c.customTools ++ [t₁, t₂]).map fun t => jsToLower t.name) =
        (c.customTools.map fun t => jsToLower t.name) ++
          [jsToLower t₂.name, jsToLower t₂.name] := by
      simp [hname]
    rw [h2] at h
    have := List.Nodup.sublist hsub h
    simp at this
  have hlen : ((addTool (addTool c t₁) t₂).customTools.map
        fun t => jsToLower t.name).length ≠
      ((addTool (addTool c t₁) t₂).customTools.map
        fun t => jsToLower t.name).dedup.length := by
    intro heq
    apply hnd
    have hsubd := List.dedup_sublist
      ((addTool (addTool c t₁) t₂).customTools.map fun t => jsToLower t.name)
    have heq2 := List.Sublist.eq_of_length hsubd heq.symm
    rw [← heq2]
    exact List.nodup_dedup _
  obtain ⟨i0, rest, hir⟩ := List.exists_cons_of_ne_nil
    (show (addTool (addTool c t₁) t₂).integrations ≠ [] from hint)
  unfold validateConfig
  apply List.mem_append_right
  rw [hir]
  refine List.mem_flatMap.mpr ⟨(0, i0), ?_, ?_⟩
  · simp [List.enum_cons]
  · apply List.mem_append_right
    apply List.mem_append_left
    rw [if_pos hlen]
    exact List.mem_singleton_self _

/-- Witness for C8's amended statement: a configuration with one integration
and the `get-weather` tool added twice does get the duplicate-names error
from `validateConfig`. -/
theorem addTool_no_validation_witness :
    ((addIntegration (createBasicConfig "Weather Server" "Weather tools")
        { name := "some-service", description := "s",
          envVars := none, methods := none }).integrations ≠ []) ∧
    "Duplicate tool names detected" ∈
      validateConfig
        (addTool
          (addTool
            (addIntegration (createBasicConfig "Weather Server" "Weather tools")
              { name := "some-service", description := "s",
                envVars := none, methods := none })
            getWeatherTool1)
          getWeatherTool2) :=
  ⟨List.cons_ne_nil _ _,
   (addTool_no_validation
      (addIntegration (createBasicConfig "Weather Server" "Weather tools")
        { name := "some-service", description := "s",
          envVars := none, methods := none })
      getWeatherTool1 getWeatherTool2 (List.cons_ne_nil _ _) (by decide)).2.2.2⟩

/-- Counterexample for C8 as stated: adding `Get Weather` twice through
`addTool` raises nothing — both tools land in the configuration with the
same sanitized name — and on this integration-free configuration even
`validateConfig` reports no error at all. -/
theorem addTool_counterexample :
    weatherConfigTwice.customTools.map (fun t => t.name) =
      ["get-weather", "get-weather"] ∧
    validateConfig weatherConfigTwice = [] :=
  ⟨by decide, by decide⟩

/-! ## C9: renderer determinism -/

/-- C9.  Rendering a configuration is a pure function of the configuration:
the file tree written by `generateServer`, viewed relative to the output
directory, is the same for any two render invocations (in particular into
two different empty directories) — byte-identical paths and contents. -/
theorem render_deterministic (config : RServerConfig) (dir₁ dir₂ : String) :
    relTree (generateServerFiles config dir₁) =
      relTree (generateServerFiles config dir₂) := by
  simp [relTree, generateServerFiles, List.map_map, Function.comp_def,
    List.tail_cons]
